import Mathlib

/-!
Shallow embedding of the search-pattern discovery engine
(`src/search_pattern_discovery/app/...`) and of the article link
classifier / extractor (`src/base-url-to-article/main.py`).

The browser environment (Playwright) is modelled explicitly: a `Page`
carries the observable data the code reads (current URL, the result of
`page.content()`, the anchor elements of `query_selector_all("a")`), and
each DOM interaction of a strategy is represented by a probe record that
lists the environment's responses to the successive steps of that attempt
(element found, visible, fill/press succeeded, resulting page state).
Library primitives that the repository merely calls — `hashlib.md5`,
`urllib.parse.urljoin`, `datetime.strptime` — are kept as uninterpreted
function parameters; every theorem below is proved for all values of
those parameters, so no conclusion depends on their internals.
-/

namespace SearchSpec

/-- `charsLead needle hay`: `hay` starts with `needle` (structural, so it
evaluates inside the kernel, unlike the well-founded `String` primitives). -/
def charsLead : List Char → List Char → Bool
  | [], _ => true
  | _ :: _, [] => false
  | a :: as, b :: bs => a == b && charsLead as bs

/-- `charsContain needle hay`: `needle` occurs contiguously in `hay`. -/
def charsContain (needle : List Char) : List Char → Bool
  | [] => needle.isEmpty
  | b :: bs => charsLead needle (b :: bs) || charsContain needle bs

/-- Python's `needle in hay` substring test on strings. -/
def pyIn (needle hay : String) : Bool :=
  charsContain needle.toList hay.toList

/-- Python's `s.lower()` (ASCII case folding, which is all the code's
tokens need). -/
def pyLower (s : String) : String :=
  String.mk (s.toList.map Char.toLower)

/-- Python's `s.startswith(prefixStr)`. -/
def pyStartsWith (prefixStr s : String) : Bool :=
  charsLead prefixStr.toList s.toList

/-- Python's `s.rstrip("/")`: drop every trailing `/`. -/
def rstripSlash (s : String) : String :=
  String.mk ((s.toList.reverse.dropWhile (· == '/')).reverse)

/-- Python truthiness of an optional string: `None` and `""` are falsy. -/
def truthy (o : Option String) : Bool :=
  o.getD "" != ""

/-- A rendered page as the validator and the strategies observe it:
`url` is the `page.url` property, `contentRes` the result of
`await page.content()` (`.error` models the call raising), `anchors`
the result of `query_selector_all("a")` — one `href` attribute per
anchor element (`none` when the attribute is absent). -/
structure Page where
  url : String
  contentRes : Except Unit String
  anchors : Except Unit (List (Option String))

/-- `app/validator.py`, `get_page_hash`: md5 of the page content, `None`
when the content read raises or the content is empty. The digest
function `md5` is an uninterpreted parameter. -/
def get_page_hash (md5 : String → String) (page : Page) : Option String :=
  match page.contentRes with
  | .error _ => none
  | .ok c => if c == "" then none else some (md5 c)

/-- `app/validator.py`, `validate_search`: score a post-interaction page
state; returns `(confidence, result_type)`. Mirrors the source rule by
rule: empty-page early return, URL change (+2), search token in URL (+2),
content-hash change (+1), keyword visible (+1), result phrases (+1),
at least 5 anchors (+1), AJAX override (+2), modal label override, and
the final cap at 6. Any failure of the content read yields `(0, "error")`. -/
def validate_search (md5 : String → String) (page : Page)
    (original_url original_hash keyword : Option String) : Nat × String :=
  match page.contentRes with
  | .error _ => (0, "error")
  | .ok content =>
    let new_url := page.url
    let content_lower := pyLower content
    if content.length < 500 then (0, "empty")
    else
      -- 1: URL changed
      let urlChanged := truthy original_url &&
        (rstripSlash new_url != rstripSlash (original_url.getD ""))
      let score := if urlChanged then 2 else 0
      let result_type := if urlChanged then "redirect" else "unknown"
      -- 2: URL contains search indicators
      let urlSearch := ["search", "?q=", "?s=", "query="].any
        (fun x => pyIn x (pyLower new_url))
      let score := score + (if urlSearch then 2 else 0)
      let result_type :=
        if urlSearch && result_type == "unknown" then "search-url" else result_type
      -- 3: content changed (only if original_hash provided)
      let hashChanged := truthy original_hash &&
        (match get_page_hash md5 page with
         | some h => h != "" && h != original_hash.getD ""
         | none => false)
      let score := score + (if hashChanged then 1 else 0)
      let result_type :=
        if hashChanged && result_type == "unknown" then "same-page" else result_type
      -- 4: keyword visible
      let kwVisible := truthy keyword && pyIn (pyLower (keyword.getD "")) content_lower
      let score := score + (if kwVisible then 1 else 0)
      -- 5: search result phrases
      let phrases := ["search result", "results for", "no results", "found"].any
        (fun x => pyIn x content_lower)
      let score := score + (if phrases then 1 else 0)
      -- 6: at least 5 anchor elements (a raise is tolerated)
      let linkBonus :=
        match page.anchors with
        | .error _ => 0
        | .ok links => if links.length ≥ 5 then 1 else 0
      let score := score + linkBonus
      -- 7: AJAX-style search (URL unchanged, content changed)
      let ajax := truthy original_url &&
        (rstripSlash new_url == rstripSlash (original_url.getD "")) &&
        truthy original_hash &&
        (match get_page_hash md5 page with
         | some h => h != "" && h != original_hash.getD ""
         | none => false)
      let score := score + (if ajax then 2 else 0)
      let result_type := if ajax then "ajax" else result_type
      -- 8: modal detection
      let modal := ["modal", "popup", "overlay"].any (fun x => pyIn x content_lower)
      let result_type := if modal then "modal" else result_type
      -- 9: cap
      (if score > 6 then 6 else score, result_type)

/-- Claim C4: a page whose rendered content is shorter than 500 characters
makes the Validator return confidence 0 and result type "empty", for every
choice of the optional arguments and whatever the page URL or anchors are. -/
theorem claim_C4_validator_short_content_empty
    (md5 : String → String) (page : Page) (c : String)
    (original_url original_hash keyword : Option String)
    (h1 : page.contentRes = .ok c) (h2 : c.length < 500) :
    validate_search md5 page original_url original_hash keyword = (0, "empty") := by
  unfold validate_search
  rw [h1]
  simp [h2]

/-- Witness for C4 at a concrete page: URL set, links plentiful, arguments
supplied — the short content still yields `(0, "empty")`. -/
theorem claim_C4_witness :
    validate_search id
      ⟨"https://example.com/search?q=x", .ok "short", .ok [some "/a", some "/b", some "/c", some "/d", some "/e"]⟩
      (some "https://example.com") (some "abc") (some "kw") = (0, "empty") :=
  claim_C4_validator_short_content_empty id _ "short" _ _ _ rfl (by decide)

/-- The validator's final cap keeps every score at or below 6. -/
theorem cap_le_six (n : Nat) : (if n > 6 then 6 else n) ≤ 6 := by
  split <;> omega

/-- Claim C5: for every input the Validator's confidence is at most 6 (its
score is a `Nat`, so the claimed interval `[0,6]` follows), and a failing
content read yields `(0, "error")`. -/
theorem claim_C5_validator_score_bounded
    (md5 : String → String) (page : Page)
    (original_url original_hash keyword : Option String) :
    (validate_search md5 page original_url original_hash keyword).1 ≤ 6 ∧
    (page.contentRes = .error () →
      validate_search md5 page original_url original_hash keyword = (0, "error")) := by
  constructor
  · unfold validate_search
    rcases h : page.contentRes with _ | c
    · simp
    · simp only
      split
      · simp
      · dsimp only
        exact cap_le_six _
  · intro h
    unfold validate_search
    rw [h]

/-- Witness for C5: the error case at a page whose content read raises,
and the bound at that same page. -/
theorem claim_C5_witness :
    validate_search id ⟨"https://example.com", .error (), .ok []⟩ none none none = (0, "error") ∧
    (validate_search id ⟨"https://example.com", .error (), .ok []⟩ none none none).1 ≤ 6 :=
  ⟨(claim_C5_validator_score_bounded id _ none none none).2 rfl,
   (claim_C5_validator_score_bounded id _ none none none).1⟩

/-- The test keyword every probe fills in (`TEST_KEYWORD` in the strategies
and the default `keyword` argument of `execute_search`; both call sites of
`execute_search` leave the default in place). -/
def TEST_KEYWORD : String := "automationtest123"

/-- A discovered search pattern: the dict a strategy returns. The Input,
Icon and Url strategies set all four keys; the Fallback strategy sets only
`method` and `pattern`, so `confidence` and `result_type` are optional. -/
structure SearchPattern where
  method : String
  pattern : String
  confidence : Option Nat
  result_type : Option String
deriving DecidableEq, Repr

/-- The environment's responses to one `execute_search` invocation:
`pageAt` is the page when the call starts (baseline URL and hash),
`found` whether `query_selector(input_selector)` returns an element,
`stepsOk` whether focus/fill/press/wait all complete without raising,
and `pageAfter` the page state the validator then sees. -/
structure ExecProbe where
  pageAt : Page
  found : Bool
  stepsOk : Bool
  pageAfter : Page

/-- `app/executor.py`, `execute_search`: record the baseline, drive the
input through focus/fill/press-Enter, then score with the Validator.
A falsy selector, a missing element, or any raising step yields
`(0, "none")`. -/
def execute_search (md5 : String → String) (input_selector : Option String)
    (e : ExecProbe) : Nat × String :=
  let original_url := e.pageAt.url
  let original_hash := get_page_hash md5 e.pageAt
  if truthy input_selector then
    if e.found then
      if e.stepsOk then
        validate_search md5 e.pageAfter (some original_url) original_hash (some TEST_KEYWORD)
      else (0, "none")
    else (0, "none")
  else (0, "none")

/-- The environment's responses to one Input-strategy selector attempt:
presence/visibility of the element, its `type` attribute, whether the
clear/fill/press steps ran without raising, whether the network listener's
`captured_request` is set when the strategy checks it, and the data of the
two possible nested `execute_search` calls (after Enter, and after the
submit-button click) together with the submit button's state. -/
structure SelectorProbe where
  found : Bool
  visible : Bool
  typeAttr : Option String
  stepsOk : Bool
  network : Bool
  firstExec : ExecProbe
  submitVisible : Bool
  submitOk : Bool
  secondExec : ExecProbe

/-- The input types the Input strategy skips (`email`/`password`/`tel`/`number`). -/
def isBadType : Option String → Bool
  | some t => ["email", "password", "tel", "number"].contains t
  | none => false

/-- The literal selector list of `app/strategies/input_strategy.py` in
source order, before the `dict.fromkeys` deduplication. The entry
`"input[data-coveo]input[class*='elastic']"` reproduces the source, where
a missing comma makes Python concatenate the two adjacent string
literals into one. -/
def INPUT_SELECTORS_RAW : List String := [
  "input[type='search']",
  "input[name='q']",
  "input[name='query']",
  "input[name='s']",
  "input[name='search']",
  "input[name='keyword']",
  "input[name='keys']",
  "input[name='searchTerm']",
  "input[name='search_query']",
  "input[name='searchKey']",
  "input[name='searchText']",
  "input[name='search_string']",
  "input[name='searchValue']",
  "input[name='search_for']",
  "input[name='search_term']",
  "input[name='search_keywords']",
  "input[placeholder*='Search']",
  "input[placeholder*='search']",
  "input[class*='search']",
  "input[class*='Search']",
  "input[class*='query']",
  "input[id*='search']",
  "input[id*='Search']",
  "input[id*='query']",
  "[role='search'] input",
  "form[action*='search'] input",
  "#search",
  "#search-field",
  "#search-input",
  ".mobile-search input",
  "input[name='s']",
  "input[id='s']",
  "input[class*='wp-search']",
  "input[class*='wp-block-search']",
  "input[name='keys']",
  "input[id*='edit-keys']",
  "input[class*='block-search']",
  "input[name='searchword']",
  "input[id*='mod-search-searchword']",
  "input[name='searchCriteria']",
  "input[name='search_query']",
  "input[class*='catalogsearch']",
  "input[id*='search']",
  "input[name='q']",
  "input[id='Search-In-Modal']",
  "input[id='Search-In-Drawer']",
  "input[name='ctl00$Search']",
  "input[id*='ctl00_Search']",
  "input[name='k']",
  "input[id*='SearchBox']",
  "input[name='txtSearch']",
  "input[id*='txtSearch']",
  "input[name='searchText']",
  "input[name='searchBox']",
  "input[id*='searchBox']",
  "input[class*='searchBox']",
  "input[data-testid*='search']",
  "input[data-test*='search']",
  "input[data-qa*='search']",
  "input[data-search]",
  "input[aria-label*='Search']",
  "input[aria-label*='search']",
  "input[placeholder*='Type to search']",
  "input[placeholder*='Search here']",
  "input[placeholder*='What are you looking']",
  "input[placeholder*='Enter keyword']",
  "input[placeholder*='Enter search']",
  "input[class*='SearchField']",
  "input[class*='SearchInput']",
  "input[class*='SearchBox']",
  "input[class*='SearchBar']",
  "input[class*='site-search']",
  "input[class*='header-search']",
  "input[class*='nav-search']",
  "input[id*='SearchField']",
  "input[id*='SearchInput']",
  "input[id*='SearchBox']",
  "input[id*='SearchBar']",
  "input[id*='site-search']",
  "input[data-component*='search']",
  "input[data-role*='search']",
  "input[data-module*='search']",
  "input[class*='ais-SearchBox-input']",
  "input[id*='algolia']",
  "input[class*='coveo-search']",
  "input[data-coveo]input[class*='elastic']",
  "input[name='SearchTerm']",
  "input[name='searchString']",
  "input[name='queryText']",
  "input[name='searchString']",
  "input[name='search_phrase']",
  "form[role='search'] input",
  "form[class*='search'] input",
  "nav input[name='q']",
  "header input[name='q']",
  "input[name='search_input']",
  "input[name='search-field']",
  "input[id='search-field']",
  "input[v-model*='search']",
  "input[ng-model*='search']"]

/-- `list(dict.fromkeys(...))`: duplicates removed, first occurrences kept. -/
def INPUT_SELECTORS : List String := INPUT_SELECTORS_RAW.eraseDups

namespace InputSearchStrategy

def CONFIDENCE_THRESHOLD : Nat := 3

/-- One iteration of the selector loop in
`InputSearchStrategy.execute`: skip on absent/invisible element or a
non-text input type or a raising interaction; accept with confidence 4 and
result type "network" as soon as `captured_request` is set; otherwise
validate via `execute_search`, and once more after clicking a visible
submit button. `none` means the loop continues with the next selector. -/
def step (md5 : String → String) (sel : String) (p : SelectorProbe) :
    Option SearchPattern :=
  if !p.found then none
  else if !p.visible then none
  else if isBadType p.typeAttr then none
  else if !p.stepsOk then none
  else if p.network then
    some ⟨"input", sel, some 4, some "network"⟩
  else
    let v := execute_search md5 (some sel) p.firstExec
    if v.1 ≥ CONFIDENCE_THRESHOLD then some ⟨"input", sel, some v.1, some v.2⟩
    else if p.submitVisible then
      if p.submitOk then
        let w := execute_search md5 (some sel) p.secondExec
        if w.1 ≥ CONFIDENCE_THRESHOLD then some ⟨"input", sel, some w.1, some w.2⟩
        else none
      else none
    else none

/-- `InputSearchStrategy.execute`: first accepted selector wins, exhausting
the list yields `None`. The environment `env` gives each selector's probe
responses. -/
def execute (md5 : String → String) (env : String → SelectorProbe) :
    Option SearchPattern :=
  INPUT_SELECTORS.findSome? (fun sel => step md5 sel (env sel))

end InputSearchStrategy

/-- Claim C3: whenever an Input-strategy attempt reaches the network check
(element found, visible, text-like type, interaction clean) and the network
observer has fired, the attempt accepts with confidence exactly 4 and
result type "network" — for every digest function and every behaviour of
the nested `execute_search` probes, so the Validator's verdict is never
consulted. -/
theorem claim_C3_input_network_short_circuit
    (md5 : String → String) (sel : String) (p : SelectorProbe)
    (h1 : p.found = true) (h2 : p.visible = true)
    (h3 : isBadType p.typeAttr = false) (h4 : p.stepsOk = true)
    (h5 : p.network = true) :
    InputSearchStrategy.step md5 sel p =
      some ⟨"input", sel, some 4, some "network"⟩ := by
  unfold InputSearchStrategy.step
  rw [h1, h2, h3, h4, h5]
  rfl

/-- Witness for C3: a concrete probe whose validator-relevant fields would
score 0, yet the network capture forces confidence 4. -/
theorem claim_C3_witness :
    InputSearchStrategy.step id "input[name='q']"
      ⟨true, true, some "text", true, true,
       ⟨⟨"u", .ok "", .ok []⟩, false, false, ⟨"u", .ok "", .ok []⟩⟩, false, false,
       ⟨⟨"u", .ok "", .ok []⟩, false, false, ⟨"u", .ok "", .ok []⟩⟩⟩ =
      some ⟨"input", "input[name='q']", some 4, some "network"⟩ :=
  claim_C3_input_network_short_circuit id "input[name='q']" _ rfl rfl rfl rfl rfl

/-- The environment's responses to one Icon-strategy selector attempt:
element presence, visibility, whether the click raised, and the
`execute_search` probe data for each input selector tried after the click
(the bounded wait for an `input` to appear is timeout-tolerant and has no
observable result). -/
structure IconProbe where
  found : Bool
  visible : Bool
  clickOk : Bool
  execEnv : String → ExecProbe

namespace IconSearchStrategy

def CONFIDENCE_THRESHOLD : Nat := 3

/-- The literal `ICON_SELECTORS` list of `app/strategies/icon_strategy.py`. -/
def ICON_SELECTORS : List String := [
  "button[aria-label*='search']",
  "button[aria-label*='Search']",
  "button[title*='search']",
  "button[title*='Search']",
  "svg[class*='search']",
  "svg[aria-hidden='true'][class*='icon']",
  "svg[viewBox][class*='magnifier']",
  "i[class*='search']",
  "i[class*='icon-search']",
  "i[class*='fa-search']",
  "i[class*='magnifier']",
  "[data-testid*='search']",
  "[data-icon*='search']",
  "button[class*='search']",
  "div[class*='search-icon']",
  "span[class*='search-icon']",
  "a[class*='search']",
  ".search-toggle",
  ".search-button",
  ".search-trigger",
  ".nav-search",
  ".navbar-search",
  ".mobile-search",
  ".icon-search",
  "[class*='magnifier']",
  "header button[class*='search']",
  "header svg[class*='search']",
  "[role='search'] button",
  "button svg"]

/-- One iteration of the icon loop in `IconSearchStrategy.execute`: click
the visible icon, then run the fill-and-submit protocol over the full
Input selector list; the first sub-attempt scoring at least 3 wins with
the icon selector as the pattern. -/
def step (md5 : String → String) (sel : String) (p : IconProbe) :
    Option SearchPattern :=
  if !p.found then none
  else if !p.visible then none
  else if !p.clickOk then none
  else
    INPUT_SELECTORS.findSome? (fun isel =>
      let v := execute_search md5 (some isel) (p.execEnv isel)
      if v.1 ≥ CONFIDENCE_THRESHOLD then some ⟨"icon", sel, some v.1, some v.2⟩
      else none)

/-- `IconSearchStrategy.execute`: first accepted icon wins, exhausting the
list yields `None`. -/
def execute (md5 : String → String) (env : String → IconProbe) :
    Option SearchPattern :=
  ICON_SELECTORS.findSome? (fun sel => step md5 sel (env sel))

end IconSearchStrategy

/-- Python's `pattern.format(arg)` for a template with `{}` placeholders. -/
def pyFormat (s arg : String) : String :=
  String.intercalate arg (s.splitOn "{}")

/-- The environment's responses to one Url-strategy navigation attempt:
whether `safe_goto` returned a response (after its fast and slow tries),
the response status, and the `temp_page` state after the navigation. -/
structure UrlProbe where
  responseOk : Bool
  status : Nat
  page : Page

namespace UrlSearchStrategy

def CONFIDENCE_THRESHOLD : Nat := 2

/-- The literal `SEARCH_URL_PATTERNS` list of
`app/strategies/url_strategy.py`. -/
def SEARCH_URL_PATTERNS : List String := [
  "/search?q={}",
  "/search?query={}",
  "/search?keyword={}",
  "/search?term={}",
  "/search?search={}",
  "/search?text={}",
  "/?q={}",
  "/?query={}",
  "/?s={}",
  "/?search={}",
  "/search/{}",
  "/search/{}/",
  "/search/results?q={}",
  "/search/results?query={}",
  "/api/search?q={}",
  "/api/search?query={}",
  "/api/v1/search?q={}",
  "/content/search?q={}",
  "/site/search?q={}",
  "/find?q={}",
  "/lookup?q={}",
  "/articles/search?q={}",
  "/news/search?q={}",
  "/search.aspx?q={}",
  "/search.php?q={}",
  "/search.jsp?q={}",
  "/en/search?q={}",
  "/global/search?q={}",
  "search/?k={}"]

/-- The four pre-filters of one Url-strategy attempt, as the source checks
them: a response with status 200, a search-like token in the resulting
URL, a resulting URL different from the base URL, and at least 5 anchor
elements on the landed page. -/
def prefiltersPass (base_url : String) (pr : UrlProbe) : Bool :=
  pr.responseOk && pr.status == 200 &&
  (pyIn "search" (pyLower pr.page.url) || pyIn "q=" (pyLower pr.page.url)) &&
  (rstripSlash (pyLower pr.page.url) != rstripSlash base_url) &&
  (match pr.page.anchors with
   | .error _ => false
   | .ok links => links.length ≥ 5)

/-- One iteration of the template loop in `UrlSearchStrategy.execute`.
After the four pre-filters the source runs
`score = await validate_search(...)` — binding the validator's
`(score, result_type)` PAIR to `score` — and then evaluates
`score >= self.CONFIDENCE_THRESHOLD`. Comparing a tuple with an int
raises `TypeError`, the bare `except` swallows it, and the loop continues:
the attempt can never return a pattern, which the trailing `none` after
the (discarded) validator call records. -/
def step (md5 : String → String) (resolve : String → String → String)
    (base_url : String) (pattern : String) (env : String → UrlProbe) :
    Option SearchPattern :=
  let test_url := resolve (rstripSlash base_url ++ "/") (pyFormat pattern TEST_KEYWORD)
  let pr := env test_url
  if !pr.responseOk then none
  else if pr.status != 200 then none
  else
    let current_url := pyLower pr.page.url
    if !(pyIn "search" current_url || pyIn "q=" current_url) then none
    else if rstripSlash current_url == rstripSlash base_url then none
    else
      match pr.page.anchors with
      | .error _ => none
      | .ok links =>
        if links.length < 5 then none
        else
          let _score := validate_search md5 pr.page (some base_url) none (some TEST_KEYWORD)
          none

/-- `UrlSearchStrategy.execute`: try every template against the
environment's navigation responses. -/
def execute (md5 : String → String) (resolve : String → String → String)
    (base_url : String) (env : String → UrlProbe) : Option SearchPattern :=
  SEARCH_URL_PATTERNS.findSome? (fun pat => step md5 resolve base_url pat env)

/-- Every Url-strategy attempt falls through to the next template. -/
theorem step_eq_none (md5 : String → String) (resolve : String → String → String)
    (base_url pattern : String) (env : String → UrlProbe) :
    step md5 resolve base_url pattern env = none := by
  unfold step
  dsimp only
  split
  · rfl
  · split
    · rfl
    · split
      · rfl
      · split
        · rfl
        · split
          · rfl
          · split <;> rfl

end UrlSearchStrategy

namespace FallbackStrategy

/-- `app/strategies/fallback_strategy.py`: return the first anchor whose
`href` contains "search" (case-insensitive) as
`{method: "fallback", pattern: href}` — no `confidence`, no
`result_type`; a raising `query_selector_all` yields `None`. -/
def execute (page : Page) : Option SearchPattern :=
  match page.anchors with
  | .error _ => none
  | .ok links =>
    links.findSome? (fun href? =>
      match href? with
      | some href =>
        if href != "" && pyIn "search" (pyLower href) then
          some ⟨"fallback", href, none, none⟩
        else none
      | none => none)

end FallbackStrategy

/-- The full environment one discovery run observes: the three probing
strategies' response functions and the current page (which the Fallback
strategy scans). -/
structure World where
  inputEnv : String → SelectorProbe
  iconEnv : String → IconProbe
  urlEnv : String → UrlProbe
  page : Page

/-- `app/detector.py`, `detect_search`: run Input, Icon, Url, Fallback in
that order and return the first non-`None` result. -/
def detect_search (md5 : String → String) (resolve : String → String → String)
    (w : World) (base_url : String) : Option SearchPattern :=
  match InputSearchStrategy.execute md5 w.inputEnv with
  | some r => some r
  | none =>
    match IconSearchStrategy.execute md5 w.iconEnv with
    | some r => some r
    | none =>
      match UrlSearchStrategy.execute md5 resolve base_url w.urlEnv with
      | some r => some r
      | none => FallbackStrategy.execute w.page

/-- `app/db.py`, `save_search_pattern`: `true` iff the upsert happens —
a no-op for `None` and whenever `result.get("confidence", 0) <= 0`. -/
def save_search_pattern : Option SearchPattern → Bool
  | none => false
  | some r => if r.confidence.getD 0 ≤ 0 then false else true

/-- The persistence gate of `app/worker.py`, `process_domain`: a discovery
result reaches the store only when `result.get("confidence", 0) > 0`, and
the store itself then applies `save_search_pattern`'s own gate. `true` iff
a pattern is persisted for the domain. -/
def process_domain_persists (result : Option SearchPattern) : Bool :=
  match result with
  | none => false
  | some r =>
    if r.confidence.getD 0 > 0 then save_search_pattern (some r) else false

/-- Modelled from the spec: the declared `result_type` value set of the
SearchPattern data model (spec §3), used to compare the executor's "none"
label against the spec's enumeration. -/
def specResultTypes : List String :=
  ["redirect", "search-url", "same-page", "ajax", "modal", "network", "url",
   "unknown", "empty", "error"]

/-- Claim C10: a selector that matches no element, or any raising
focus/fill/press/wait step, makes `execute_search` return score 0 with the
label "none" — a label outside the spec's declared result-type set — and a
0 score is below both the Input and the Icon acceptance thresholds. -/
theorem claim_C10_execute_search_failure_label
    (md5 : String → String) (sel : Option String) (e : ExecProbe)
    (h : e.found = false ∨ e.stepsOk = false) :
    execute_search md5 sel e = (0, "none") ∧
    specResultTypes.contains "none" = false ∧
    ¬(InputSearchStrategy.CONFIDENCE_THRESHOLD ≤ 0) ∧
    ¬(IconSearchStrategy.CONFIDENCE_THRESHOLD ≤ 0) := by
  refine ⟨?_, by decide, by decide, by decide⟩
  rcases h with h | h <;> simp [execute_search, h]

/-- Witness for C10: a concrete call whose selector matches nothing. -/
theorem claim_C10_witness :
    execute_search id (some "input[name='q']")
      ⟨⟨"https://example.com", .ok "", .ok []⟩, false, true,
       ⟨"https://example.com", .ok "", .ok []⟩⟩ = (0, "none") ∧
    specResultTypes.contains "none" = false ∧
    ¬(InputSearchStrategy.CONFIDENCE_THRESHOLD ≤ 0) ∧
    ¬(IconSearchStrategy.CONFIDENCE_THRESHOLD ≤ 0) :=
  claim_C10_execute_search_failure_label id _ _ (Or.inl rfl)

/-- A page state demonstrating the Url-strategy slip: 200 response, URL
that contains the search token and differs from the base URL, more than
5 anchors, and content long enough (and keyword-bearing) for the
Validator to score well above the threshold. -/
def urlBugContent : String := String.mk (List.replicate 500 'x') ++ TEST_KEYWORD

def urlBugPage : Page :=
  ⟨"https://example.com/search?q=automationtest123", .ok urlBugContent,
   .ok [some "/a", some "/b", some "/c", some "/d", some "/e"]⟩

def urlBugProbe : UrlProbe := ⟨true, 200, urlBugPage⟩

set_option maxRecDepth 40000 in
/-- Claim C1 (refuted by the code): the Url strategy can never accept.
The source binds the validator's `(score, result_type)` pair to `score`
and compares that tuple against the integer threshold; the `TypeError` is
swallowed by the bare `except`, so every template is skipped and
`execute` is constantly `None` — even at an attempt that passes all four
pre-filters and whose Validator score is at least 2, as the concrete
conjuncts show. -/
theorem claim_C1_url_strategy_never_accepts :
    (∀ (md5 : String → String) (resolve : String → String → String)
       (base_url : String) (env : String → UrlProbe),
       UrlSearchStrategy.execute md5 resolve base_url env = none) ∧
    UrlSearchStrategy.prefiltersPass "https://example.com" urlBugProbe = true ∧
    UrlSearchStrategy.CONFIDENCE_THRESHOLD ≤
      (validate_search id urlBugPage (some "https://example.com") none (some TEST_KEYWORD)).1 ∧
    UrlSearchStrategy.step id (fun _ s => s) "https://example.com" "/search?q={}"
      (fun _ => urlBugProbe) = none := by
  refine ⟨?_, by decide, by decide, UrlSearchStrategy.step_eq_none ..⟩
  intro md5 resolve base_url env
  unfold UrlSearchStrategy.execute
  exact List.findSome?_eq_none_iff.mpr
    (fun pat _ => UrlSearchStrategy.step_eq_none md5 resolve base_url pat env)

/-- A stub page and `execute_search` probe for worlds in which the nested
validation never succeeds. -/
def stubPage : Page := ⟨"u", .ok "", .ok []⟩

def execStub : ExecProbe := ⟨stubPage, false, false, stubPage⟩

/-- A selector probe that accepts through the network short-circuit. -/
def netProbe : SelectorProbe :=
  ⟨true, true, some "text", true, true, execStub, false, false, execStub⟩

/-- A world whose Input strategy accepts (network capture on the first
selector) while Icon and Url probes all fail. -/
def world0 : World :=
  ⟨fun _ => netProbe, fun _ => ⟨false, false, false, fun _ => execStub⟩,
   fun _ => ⟨false, 0, stubPage⟩, stubPage⟩

/-- Claim C2: the Discovery Engine is a priority chain over
Input → Icon → Url → Fallback: the first non-`None` strategy's result is
returned and later strategies are never consulted (each conjunct holds
for every environment of the later strategies); when all four return
`None`, discovery returns `None`. -/
theorem claim_C2_detect_priority_chain
    (md5 : String → String) (resolve : String → String → String)
    (w : World) (base_url : String) (r : SearchPattern) :
    (InputSearchStrategy.execute md5 w.inputEnv = some r →
      detect_search md5 resolve w base_url = some r) ∧
    (InputSearchStrategy.execute md5 w.inputEnv = none →
      IconSearchStrategy.execute md5 w.iconEnv = some r →
      detect_search md5 resolve w base_url = some r) ∧
    (InputSearchStrategy.execute md5 w.inputEnv = none →
      IconSearchStrategy.execute md5 w.iconEnv = none →
      UrlSearchStrategy.execute md5 resolve base_url w.urlEnv = some r →
      detect_search md5 resolve w base_url = some r) ∧
    (InputSearchStrategy.execute md5 w.inputEnv = none →
      IconSearchStrategy.execute md5 w.iconEnv = none →
      UrlSearchStrategy.execute md5 resolve base_url w.urlEnv = none →
      detect_search md5 resolve w base_url = FallbackStrategy.execute w.page) := by
  refine ⟨?_, ?_, ?_, ?_⟩ <;> intros <;> simp_all [detect_search]

/-- Witness for C2: in `world0` an Input probe succeeds (and a Url probe
could not), and discovery returns exactly the Input-derived pattern. -/
theorem claim_C2_witness :
    detect_search id (fun _ s => s) world0 "https://example.com" =
      some ⟨"input", "input[type='search']", some 4, some "network"⟩ :=
  (claim_C2_detect_priority_chain id (fun _ s => s) world0 "https://example.com" _).1
    (by decide)

/-- Claim C6: a Fallback pattern carries no confidence field, the store is
a no-op on absent/non-positive confidence, and the Batch Runner only hands
over results with positive confidence — so a Fallback pattern is never
persisted and every persisted pattern has confidence above 0. -/
theorem claim_C6_fallback_never_persisted
    (page : Page) (r : SearchPattern) (res : Option SearchPattern) :
    (FallbackStrategy.execute page = some r →
      r.confidence = none ∧ save_search_pattern (some r) = false ∧
      process_domain_persists (some r) = false) ∧
    (process_domain_persists res = true →
      ∃ p, res = some p ∧ 0 < p.confidence.getD 0) := by
  constructor
  · intro h
    unfold FallbackStrategy.execute at h
    rcases ha : page.anchors with e | links <;> rw [ha] at h
    · cases h
    · obtain ⟨a, _, hfa⟩ := List.exists_of_findSome?_eq_some h
      match a with
      | none => cases hfa
      | some href =>
        dsimp only at hfa
        split at hfa
        · cases hfa
          exact ⟨rfl, rfl, rfl⟩
        · cases hfa
  · intro h
    match res with
    | none => cases h
    | some p =>
      refine ⟨p, rfl, ?_⟩
      by_contra hc
      simp only [process_domain_persists, Nat.not_lt, Nat.le_zero] at h hc
      rw [hc] at h
      simp at h

/-- Witness for C6: the fallback anchor `/search-archive` yields a
confidence-free pattern that the persistence chain rejects, while a
pattern that is persisted has positive confidence. -/
theorem claim_C6_witness :
    (SearchPattern.mk "fallback" "/search-archive" none none).confidence = none ∧
    save_search_pattern (some ⟨"fallback", "/search-archive", none, none⟩) = false ∧
    process_domain_persists (some ⟨"fallback", "/search-archive", none, none⟩) = false ∧
    ∃ p, (some (SearchPattern.mk "input" "input[name='q']" (some 4) (some "network"))) = some p ∧
      0 < p.confidence.getD 0 :=
  have h := claim_C6_fallback_never_persisted
    ⟨"https://example.com", .ok "", .ok [some "/search-archive"]⟩
    ⟨"fallback", "/search-archive", none, none⟩
    (some ⟨"input", "input[name='q']", some 4, some "network"⟩)
  ⟨(h.1 rfl).1, (h.1 rfl).2.1, (h.1 rfl).2.2, h.2 rfl⟩

/-!
Embedding of `src/base-url-to-article/main.py`: link classification,
link harvesting and the recency filter.
-/

/-- Python's ASCII whitespace for `str.strip()`. -/
def isPySpace (c : Char) : Bool :=
  c == ' ' || c == '\t' || c == '\n' || c == '\r' || c == '\x0b' || c == '\x0c'

/-- Python's `s.strip()`. -/
def pyStrip (s : String) : String :=
  String.mk (((s.toList.dropWhile isPySpace).reverse.dropWhile isPySpace).reverse)

/-- Python's `s[:n]` character slice. -/
def pyTake (s : String) (n : Nat) : String :=
  String.mk (s.toList.take n)

/-- Fuel-driven worker for `pySplit` (structural, kernel-evaluable):
splits at every non-overlapping occurrence of the non-empty separator. -/
def splitAcc (sep : List Char) : Nat → List Char → List Char → List (List Char)
  | _, acc, [] => [acc.reverse]
  | 0, acc, rest => [acc.reverse ++ rest]
  | fuel + 1, acc, b :: bs =>
    if charsLead sep (b :: bs) then
      acc.reverse :: splitAcc sep fuel [] (List.drop (sep.length - 1) bs)
    else
      splitAcc sep fuel (b :: acc) bs

/-- Python's `s.split(sep)` for a non-empty separator. -/
def pySplit (s sep : String) : List String :=
  if sep == "" then [s]
  else (splitAcc sep.toList (s.toList.length + 1) [] s.toList).map String.mk

/-- `c` may appear in a URL scheme after its leading letter. -/
def isSchemeChar (c : Char) : Bool :=
  c.isAlphanum || c == '+' || c == '-' || c == '.'

/-- Split a list at the first occurrence of `sep`, when there is one. -/
def splitFirst (sep : Char) : List Char → Option (List Char × List Char)
  | [] => none
  | c :: cs =>
    if c == sep then some ([], cs)
    else
      match splitFirst sep cs with
      | some (pre, post) => some (c :: pre, post)
      | none => none

/-- Drop a leading `scheme:` from a URL when the prefix before the first
colon is a valid scheme (letter first, then scheme characters), as
`urllib.parse.urlsplit` does. -/
def dropScheme (url : String) : String :=
  match splitFirst ':' url.toList with
  | some (c :: cs, post) =>
    if c.isAlpha && cs.all isSchemeChar then String.mk post else url
  | _ => url

/-- The `(netloc, path-with-params)` pair of `urllib.parse.urlsplit`:
after the scheme, a `//` opens the netloc (ending at `/`, `?` or `#`);
the path then runs to the first `?` or `#`. -/
def urlSplitCore (url : String) : List Char × List Char :=
  let rest := (dropScheme url).toList
  if charsLead ['/', '/'] rest then
    let afterSlashes := rest.drop 2
    let netloc := afterSlashes.takeWhile fun c => !(c == '/' || c == '?' || c == '#')
    let tail := afterSlashes.dropWhile fun c => !(c == '/' || c == '?' || c == '#')
    (netloc, tail.takeWhile fun c => !(c == '?' || c == '#'))
  else ([], rest.takeWhile fun c => !(c == '?' || c == '#'))

/-- `urllib.parse.urlparse` splits `;params` off the last path segment. -/
def dropParams (p : List Char) : List Char :=
  let r := p.reverse
  let lastSeg := (r.takeWhile (· != '/')).reverse
  let pre := (r.dropWhile (· != '/')).reverse
  pre ++ lastSeg.takeWhile (· != ';')

/-- `urlparse(url).path`. -/
def urlPath (url : String) : String :=
  String.mk (dropParams (urlSplitCore url).2)

/-- `urlparse(url).netloc`. -/
def urlNetloc (url : String) : String :=
  String.mk (urlSplitCore url).1

/-- The `NON_ARTICLE_PATH_SEGMENTS` set literal of `main.py`. -/
def NON_ARTICLE_PATH_SEGMENTS : List String := [
  "topics", "topic", "category", "categories", "cat", "tag", "tags",
  "label", "labels", "explore", "browse", "author", "authors",
  "contributor", "contributors", "page", "archive", "archives", "search",
  "feed", "rss", "newsletter", "subscribe", "subscription",
  "about", "contact", "advertise", "careers", "events", "webinar",
  "webinars", "conference", "podcast", "podcasts", "video", "videos",
  "gallery", "product", "products", "shop", "store",
  "login", "register", "signup", "account"]

/-- The extension denylist inside `is_likely_article_url`. -/
def NON_ARTICLE_EXTENSIONS : List String :=
  [".pdf", ".jpg", ".jpeg", ".png", ".gif", ".svg",
   ".zip", ".xml", ".json", ".css", ".js"]

def MIN_ANCHOR_TEXT_LEN : Nat := 20

/-- The `ext` value `is_likely_article_url` derives from a URL: the
dot-suffix of the last (lower-cased) path segment, or `""`. -/
def urlExt (url : String) : String :=
  let path := rstripSlash (urlPath url)
  let last_seg := (pySplit (pyLower path) "/").getLastD ""
  if pyIn "." last_seg then "." ++ (pySplit last_seg ".").getLastD "" else ""

/-- `main.py`, `is_likely_article_url(url, anchor_text, base_url)`:
`(accept, reason)`. Checks, in source order: terse anchor text,
non-article extension, shallow `.html` path, denylisted path segment,
shallow path, and the base URL itself. -/
def is_likely_article_url (url anchor_text base_url : String) : Bool × String :=
  let path := rstripSlash (urlPath url)
  let text := pyStrip anchor_text
  if text != "" && text.length < MIN_ANCHOR_TEXT_LEN then
    (false, "anchor text too short (" ++ toString text.length ++ " chars)")
  else
    let lower_path := pyLower path
    let last_seg := (pySplit lower_path "/").getLastD ""
    let ext := if pyIn "." last_seg then "." ++ (pySplit last_seg ".").getLastD "" else ""
    if NON_ARTICLE_EXTENSIONS.contains ext then
      (false, "non-article extension: " ++ ext)
    else if (ext == ".html" || ext == ".htm") &&
        ((pySplit path "/").filter (· != "")).length < 4 then
      (false, ".html shallow path")
    else
      match (((pySplit path "/").filter (· != "")).map pyLower).find?
          (fun seg => NON_ARTICLE_PATH_SEGMENTS.contains
            ((pySplit ((pySplit seg "?").headD "") "#").headD "")) with
      | some seg => (false, "non-article path segment: '" ++ seg ++ "'")
      | none =>
        if ((pySplit path "/").filter (· != "")).length < 2 then
          (false, "path too shallow")
        else if path == rstripSlash (urlPath base_url) || path == "" then
          (false, "is base URL")
        else (true, "ok")

/-- Claim C8: the Link Classifier rejects every URL whose last path
segment carries a non-article extension, whatever the anchor text, and
rejects every present-but-short anchor text (< 20 characters), however
article-shaped the URL. -/
theorem claim_C8_link_classifier_rejections (url anchor_text base_url : String) :
    (NON_ARTICLE_EXTENSIONS.contains (urlExt url) = true →
      (is_likely_article_url url anchor_text base_url).1 = false) ∧
    (pyStrip anchor_text ≠ "" → (pyStrip anchor_text).length < MIN_ANCHOR_TEXT_LEN →
      (is_likely_article_url url anchor_text base_url).1 = false) := by
  constructor
  · intro hext
    unfold is_likely_article_url
    dsimp only
    split
    · rfl
    · rw [show (if pyIn "."
          ((pySplit (pyLower (rstripSlash (urlPath url))) "/").getLastD "") then
          "." ++ ((pySplit ((pySplit (pyLower (rstripSlash (urlPath url))) "/").getLastD "") ".").getLastD "")
          else "") = urlExt url from rfl, hext]
      rfl
  · intro hne hlen
    unfold is_likely_article_url
    dsimp only
    rw [if_pos]
    simp only [bne_iff_ne, ne_eq, decide_eq_true_eq, Bool.and_eq_true]
    exact ⟨by simpa using hne, by simpa using hlen⟩

/-- Witness for C8: a `.pdf` link with a long anchor is rejected, and an
article-shaped URL with a short anchor is rejected. -/
theorem claim_C8_witness :
    (is_likely_article_url "https://example.com/news/2024/report.pdf"
      "A sufficiently long headline for the classifier" "https://example.com").1 = false ∧
    (is_likely_article_url "https://example.com/news/2024/a-long-article-title"
      "Short" "https://example.com").1 = false :=
  ⟨(claim_C8_link_classifier_rejections _ _ _).1 (by decide),
   (claim_C8_link_classifier_rejections _ _ _).2 (by decide) (by decide)⟩

/-- One anchor element as link harvesting reads it: its `href` attribute
and the result of `inner_text()` (`none` models the call raising, which
the source converts to an empty anchor text). -/
structure LinkEl where
  href : Option String
  textRes : Option String

/-- The per-element body of `extract_article_links`: skip empty and
`#`/`javascript`/`mailto`/`tel` hrefs, resolve to an absolute URL
(`resolve` models `urllib.parse.urljoin`), keep same-domain links only,
deduplicate by exact absolute URL against both collected dictionaries,
then classify; `some (abs_url, anchor_text)` is a newly accepted entry. -/
def considerEl (resolve : String → String → String)
    (base_url base_domain : String)
    (accepted groupAcc : List (String × String)) (el : LinkEl) :
    Option (String × String) :=
  match el.href with
  | none => none
  | some href =>
    if href == "" then none
    else if ["#", "javascript", "mailto", "tel"].any (fun p => pyStartsWith p href) then none
    else
      let abs_url := resolve base_url href
      let link_domain := urlNetloc abs_url
      if !(pyIn base_domain link_domain || pyIn link_domain base_domain) then none
      else if accepted.any (fun kv => kv.1 == abs_url) ||
          groupAcc.any (fun kv => kv.1 == abs_url) then none
      else
        let anchor_text := pyStrip (el.textRes.getD "")
        if (is_likely_article_url abs_url anchor_text base_url).1 then
          some (abs_url, anchor_text)
        else none

/-- One selector's contribution inside a group: a raising locator is
skipped; otherwise every element is considered in order, extending the
group's ordered dictionary. -/
def harvestSel (resolve : String → String → String)
    (base_url base_domain : String) (accepted : List (String × String))
    (resp : Except Unit (List LinkEl)) (groupAcc : List (String × String)) :
    List (String × String) :=
  match resp with
  | .error _ => groupAcc
  | .ok els =>
    els.foldl (fun acc el =>
      match considerEl resolve base_url base_domain accepted acc el with
      | some kv => acc ++ [kv]
      | none => acc) groupAcc

/-- One group's pass over its selectors (the `group_accepted` dict). -/
def harvestGroup (resolve : String → String → String)
    (base_url base_domain : String) (accepted : List (String × String))
    (env : String → Except Unit (List LinkEl)) (group : List String) :
    List (String × String) :=
  group.foldl
    (fun ga sel => harvestSel resolve base_url base_domain accepted (env sel) ga) []

/-- The group loop of `extract_article_links`: the first group with an
accepted link is merged into `accepted` and the loop breaks. -/
def extractLoop (resolve : String → String → String)
    (base_url base_domain : String)
    (env : String → Except Unit (List LinkEl)) :
    List (String × String) → List (List String) → List (String × String)
  | accepted, [] => accepted
  | accepted, g :: rest =>
    let ga := harvestGroup resolve base_url base_domain accepted env g
    if ga.isEmpty then extractLoop resolve base_url base_domain env accepted rest
    else accepted ++ ga

/-- The literal `ARTICLE_LINK_SELECTOR_GROUPS` of `main.py`: five ordered
groups, from article-specific to generic. -/
def ARTICLE_LINK_SELECTOR_GROUPS : List (List String) := [
  ["article h1 a[href]", "article h2 a[href]", "article h3 a[href]",
   "article .entry-title a[href]", "article .post-title a[href]",
   "article .article-title a[href]", "article .news-title a[href]",
   "article a[href]"],
  ["h2 a[href]", "h3 a[href]", ".entry-title a[href]", ".post-title a[href]",
   ".news-title a[href]", ".article-title a[href]"],
  [".result a[href]", ".search-result a[href]", "li.result a[href]",
   "a.result-title[href]", "[class*='search-result'] a[href]"],
  [".post a[href]", ".article a[href]", "[class*='article'] a[href]",
   "[class*='post-item'] a[href]", "[class*='news-item'] a[href]"],
  ["main a[href]", "#content a[href]", ".content a[href]", "[role='main'] a[href]"]]

/-- `main.py`, `extract_article_links(page, base_url)`: the accepted
absolute URLs, in first-seen order. -/
def extract_article_links (resolve : String → String → String)
    (env : String → Except Unit (List LinkEl)) (base_url : String) :
    List String :=
  (extractLoop resolve base_url (urlNetloc base_url) env []
    ARTICLE_LINK_SELECTOR_GROUPS).map Prod.fst

/-- A group's harvest depends only on the environment's responses to that
group's own selectors. -/
theorem harvestGroup_congr (resolve : String → String → String)
    (base_url base_domain : String) (accepted : List (String × String))
    (env env' : String → Except Unit (List LinkEl)) (group : List String)
    (h : ∀ sel ∈ group, env' sel = env sel) :
    harvestGroup resolve base_url base_domain accepted env' group =
      harvestGroup resolve base_url base_domain accepted env group := by
  unfold harvestGroup
  exact List.foldl_ext _ _ [] fun ga sel hsel => by rw [h sel hsel]

/-- The group loop returns exactly the `k`-th group's harvest when every
earlier group harvests nothing and group `k` harvests something. -/
theorem extractLoop_first (resolve : String → String → String)
    (base_url base_domain : String)
    (env : String → Except Unit (List LinkEl)) :
    ∀ (gs : List (List String)) (acc : List (String × String)) (k : Nat),
      (∀ j, j < k →
        harvestGroup resolve base_url base_domain acc env (gs.getD j []) = []) →
      k < gs.length →
      harvestGroup resolve base_url base_domain acc env (gs.getD k []) ≠ [] →
      extractLoop resolve base_url base_domain env acc gs =
        acc ++ harvestGroup resolve base_url base_domain acc env (gs.getD k []) := by
  intro gs
  induction gs with
  | nil => intro acc k _ hk _; simp at hk
  | cons g rest ih =>
    intro acc k hprev hk hcur
    match k with
    | 0 =>
      rw [List.getD_cons_zero] at hcur ⊢
      unfold extractLoop
      dsimp only
      rw [List.isEmpty_eq_false.mpr hcur]
      simp
    | k' + 1 =>
      have h0 := hprev 0 (Nat.succ_pos k')
      rw [List.getD_cons_zero] at h0
      rw [List.getD_cons_succ] at hcur ⊢
      unfold extractLoop
      dsimp only
      rw [h0]
      simp only [List.isEmpty_nil, if_true]
      exact ih acc k'
        (fun j hj => by
          have := hprev (j + 1) (by omega)
          rwa [List.getD_cons_succ] at this)
        (by simpa using hk) hcur

/-- A newly accepted entry's URL is fresh: the dedupe check inside
`considerEl` rules out every URL already in the group dictionary. -/
theorem considerEl_key_fresh (resolve : String → String → String)
    (base_url base_domain : String)
    (accepted acc : List (String × String)) (el : LinkEl)
    (kv : String × String)
    (h : considerEl resolve base_url base_domain accepted acc el = some kv) :
    acc.any (fun p => p.1 == kv.1) = false := by
  unfold considerEl at h
  rcases el with ⟨href?, text?⟩
  match href? with
  | none => cases h
  | some href =>
    dsimp only at h
    split at h
    · cases h
    · split at h
      · cases h
      · split at h
        · cases h
        · split at h
          · cases h
          · split at h
            · rename_i hdedup hkeep
              injection h with h
              subst h
              have := Bool.or_eq_false_iff.mp (Bool.of_not_eq_true hdedup)
              exact this.2
            · cases h

/-- Folding `considerEl` over a list of elements preserves distinctness
of the collected URLs. -/
theorem considerFold_keys_nodup (resolve : String → String → String)
    (base_url base_domain : String) (accepted : List (String × String)) :
    ∀ (els : List LinkEl) (acc : List (String × String)),
      (acc.map Prod.fst).Nodup →
      ((els.foldl (fun acc el =>
          match considerEl resolve base_url base_domain accepted acc el with
          | some kv => acc ++ [kv]
          | none => acc) acc).map Prod.fst).Nodup := by
  intro els
  induction els with
  | nil => intro acc h; exact h
  | cons e es ih =>
    intro acc h
    simp only [List.foldl_cons]
    rcases hc : considerEl resolve base_url base_domain accepted acc e with _ | kv
    · exact ih acc h
    · apply ih
      rw [List.map_append, List.nodup_append]
      refine ⟨h, by simp, ?_⟩
      intro x hx
      simp only [List.map_cons, List.map_nil, List.mem_singleton]
      intro hxkv
      have hfresh := considerEl_key_fresh resolve base_url base_domain accepted acc e kv hc
      rw [List.any_eq_false] at hfresh
      obtain ⟨p, hp, rfl⟩ := List.mem_map.mp hx
      exact hfresh p hp (by simp [hxkv])

/-- Every harvested group dictionary has pairwise distinct URLs. -/
theorem harvestGroup_keys_nodup (resolve : String → String → String)
    (base_url base_domain : String) (accepted : List (String × String))
    (env : String → Except Unit (List LinkEl)) (group : List String) :
    ((harvestGroup resolve base_url base_domain accepted env group).map
      Prod.fst).Nodup := by
  unfold harvestGroup
  suffices h : ∀ (sels : List String) (ga : List (String × String)),
      (ga.map Prod.fst).Nodup →
      ((sels.foldl (fun ga sel =>
          harvestSel resolve base_url base_domain accepted (env sel) ga)
        ga).map Prod.fst).Nodup by
    exact h group [] (by simp)
  intro sels
  induction sels with
  | nil => intro ga h; exact h
  | cons s ss ih =>
    intro ga h
    simp only [List.foldl_cons]
    apply ih
    unfold harvestSel
    rcases env s with e | els
    · exact h
    · exact considerFold_keys_nodup resolve base_url base_domain accepted els ga h

/-- Claim C7: link harvesting stops at the first selector group with an
accepted link — the result is exactly that group's ordered harvest, it is
unchanged under any environment that agrees on groups up to `k` (so no
later group's selectors contribute), and the returned URLs are
deduplicated. -/
theorem claim_C7_link_harvest_first_group_wins
    (resolve : String → String → String)
    (env env' : String → Except Unit (List LinkEl))
    (base_url : String) (k : Nat) (hk : k < 5)
    (hprev : ∀ j, j < k →
      harvestGroup resolve base_url (urlNetloc base_url) [] env
        (ARTICLE_LINK_SELECTOR_GROUPS.getD j []) = [])
    (hcur : harvestGroup resolve base_url (urlNetloc base_url) [] env
      (ARTICLE_LINK_SELECTOR_GROUPS.getD k []) ≠ [])
    (hagree : ∀ j, j ≤ k → ∀ sel ∈ ARTICLE_LINK_SELECTOR_GROUPS.getD j [],
      env' sel = env sel) :
    extract_article_links resolve env base_url =
      (harvestGroup resolve base_url (urlNetloc base_url) [] env
        (ARTICLE_LINK_SELECTOR_GROUPS.getD k [])).map Prod.fst ∧
    extract_article_links resolve env' base_url =
      extract_article_links resolve env base_url ∧
    (extract_article_links resolve env base_url).Nodup := by
  have hlen : k < ARTICLE_LINK_SELECTOR_GROUPS.length := hk
  have hmain := extractLoop_first resolve base_url (urlNetloc base_url) env
    ARTICLE_LINK_SELECTOR_GROUPS [] k hprev hlen hcur
  have hmain' := extractLoop_first resolve base_url (urlNetloc base_url) env'
    ARTICLE_LINK_SELECTOR_GROUPS [] k
    (fun j hj => by
      rw [harvestGroup_congr resolve base_url (urlNetloc base_url) [] env env' _
        (hagree j (Nat.le_of_lt hj))]
      exact hprev j hj)
    hlen
    (by
      rw [harvestGroup_congr resolve base_url (urlNetloc base_url) [] env env' _
        (hagree k (Nat.le_refl k))]
      exact hcur)
  refine ⟨?_, ?_, ?_⟩
  · unfold extract_article_links
    rw [hmain, List.nil_append]
  · unfold extract_article_links
    rw [hmain, hmain', List.nil_append, List.nil_append,
      harvestGroup_congr resolve base_url (urlNetloc base_url) [] env env' _
        (hagree k (Nat.le_refl k))]
  · unfold extract_article_links
    rw [hmain, List.nil_append]
    exact harvestGroup_keys_nodup resolve base_url (urlNetloc base_url) [] env _

/-- A concrete harvesting environment: the first group's selectors find
nothing, `h2 a[href]` (group 2) finds one article-shaped link. -/
def linkEnvW : String → Except Unit (List LinkEl) := fun sel =>
  if sel == "h2 a[href]" then
    .ok [⟨some "/news/2024/a-long-article-title",
          some "A sufficiently long headline for harvesting"⟩]
  else .ok []

/-- Witness for C7: with `linkEnvW`, harvesting stops at group 2 and
returns its single deduplicated link. -/
theorem claim_C7_witness :
    extract_article_links (fun b rel => b ++ rel) linkEnvW "https://example.com" =
      ["https://example.com/news/2024/a-long-article-title"] ∧
    (extract_article_links (fun b rel => b ++ rel) linkEnvW
      "https://example.com").Nodup := by
  have h := claim_C7_link_harvest_first_group_wins (fun b rel => b ++ rel)
    linkEnvW linkEnvW "https://example.com" 1 (by decide)
    (fun j hj => by
      have hj0 : j = 0 := by omega
      subst hj0
      decide)
    (by decide)
    (fun j hj sel hsel => rfl)
  refine ⟨?_, h.2.2⟩
  rw [h.1]
  decide

/-- The two-year recency filter of `main.py`, `is_within_2_years`:
`(keep, reason)`. Date-string parsing (`datetime.strptime` over the
literal format list, with naive dates defaulted to UTC) is modelled by
the uninterpreted `parse` on the first 25 stripped characters, timestamps
by integers and `strftime("%Y-%m-%d")` by `fmtD`; missing or unparseable
dates are kept, otherwise the parsed date is compared to the cutoff
with `>=`. -/
def is_within_2_years (parse : String → Option Int) (fmtD : Int → String)
    (cutoff : Int) (date_str : Option String) : Bool × Option String :=
  match date_str with
  | none => (true, none)
  | some s =>
    if s == "" then (true, none)
    else
      let raw := pyStrip s
      match parse (pyTake raw 25) with
      | none => (true, none)
      | some dt =>
        if dt ≥ cutoff then (true, none)
        else (false, some ("Date " ++ fmtD dt ++ " older than cutoff " ++ fmtD cutoff))

/-- Claim C9: the recency filter keeps a date at or after the cutoff
(`>=`, so a date exactly at the cutoff is kept), and keeps every missing,
empty or unparseable date string. -/
theorem claim_C9_recency_filter_keeps
    (parse : String → Option Int) (fmtD : Int → String) (cutoff : Int)
    (s : String) (dt : Int) :
    (is_within_2_years parse fmtD cutoff none).1 = true ∧
    (is_within_2_years parse fmtD cutoff (some "")).1 = true ∧
    (parse (pyTake (pyStrip s) 25) = none →
      (is_within_2_years parse fmtD cutoff (some s)).1 = true) ∧
    (parse (pyTake (pyStrip s) 25) = some dt → cutoff ≤ dt →
      (is_within_2_years parse fmtD cutoff (some s)).1 = true) := by
  refine ⟨rfl, rfl, ?_, ?_⟩
  · intro hp
    unfold is_within_2_years
    dsimp only
    split
    · rfl
    · rw [hp]
  · intro hp hge
    unfold is_within_2_years
    dsimp only
    split
    · rfl
    · rw [hp]
      dsimp only
      rw [if_pos hge]

/-- Witness for C9: a parse function that reads `2024-01-01` as the exact
cutoff timestamp — the filter keeps it — and fails on `yesterday` — the
filter keeps that too. -/
theorem claim_C9_witness :
    (is_within_2_years
      (fun r => if r == "2024-01-01" then some 100 else none) (fun _ => "d")
      100 (some "2024-01-01")).1 = true ∧
    (is_within_2_years
      (fun r => if r == "2024-01-01" then some 100 else none) (fun _ => "d")
      100 (some "yesterday")).1 = true :=
  ⟨(claim_C9_recency_filter_keeps _ _ 100 "2024-01-01" 100).2.2.2 (by decide)
      (by decide),
   (claim_C9_recency_filter_keeps _ _ 100 "yesterday" 100).2.2.1 (by decide)⟩

end SearchSpec
